import Mathlib

/-
Verification of the property-management backend's authorization engine and
resource-lifecycle coordinator.

The definitions below are a shallow embedding of the TypeScript source:
the Prisma-backed store becomes an explicit `Store` record of entity lists,
resolver functions become pure functions `Store -> args -> Store x Except Err a`,
and Prisma lookups (`findUnique`, `findMany`, `count`) become `List.find?`,
`List.filter` and length computations.  Dates are modelled as `Nat`
timestamps and monetary amounts as `Int` (no arithmetic on them is ever
performed by the code under verification).  JavaScript truthiness of
required inputs is modelled field by field: a missing field is `none`, an
empty string and the integer 0 are the falsy present values the code also
rejects.  Error kinds follow the design's error taxonomy; each constructor
carries the message thrown by the source.
-/

namespace PMS

inductive RoomStatus where
  | AVAILABLE
  | OCCUPIED
  | RESERVED
  | MAINTENANCE
deriving DecidableEq, Repr

inductive ContractStatus where
  | PENDING
  | ACTIVE
  | EXPIRED
  | TERMINATED
deriving DecidableEq, Repr

inductive PaymentStatus where
  | PENDING
  | PAID
  | OVERDUE
  | CANCELLED
deriving DecidableEq, Repr

inductive MaintenanceStatus where
  | PENDING
  | IN_PROGRESS
  | COMPLETED
  | CANCELLED
deriving DecidableEq, Repr

inductive MaintenancePriority where
  | LOW
  | MEDIUM
  | HIGH
  | URGENT
deriving DecidableEq, Repr

inductive ErrKind where
  | unauthenticated
  | authorizationDenied
  | notFound
  | validation
  | conflict
  | storeError
deriving DecidableEq, Repr

/-- An error surfaced by an operation: the kind from the design's error
taxonomy together with the message thrown at the corresponding source
line. -/
structure Err where
  kind : ErrKind
  msg : String
deriving DecidableEq, Repr

structure Property where
  id : String
  userId : String
deriving DecidableEq, Repr

structure Room where
  id : String
  name : String
  status : RoomStatus
  price : Int
  propertyId : String
deriving DecidableEq, Repr

/-- A renter; `userId` is the optionally linked User account
(`userAccount` relation), `roomId` the optionally assigned room. -/
structure Renter where
  id : String
  name : String
  roomId : Option String
  userId : Option String
deriving DecidableEq, Repr

/-- A contract as in the Prisma schema: one room, many renters
(`renterIds` is the many-to-many `renters` relation). -/
structure Contract where
  id : String
  name : String
  roomId : String
  renterIds : List String
  startDate : Option Nat
  endDate : Option Nat
  amount : Int
  status : ContractStatus
  terminationReason : Option String
  terminationDate : Option Nat
deriving DecidableEq, Repr

structure Payment where
  id : String
  renterId : String
  contractId : Option String
  amount : Int
  status : PaymentStatus
  paidDate : Option Nat
  description : Option String
deriving DecidableEq, Repr

structure MaintenanceEvent where
  id : String
  title : String
  status : MaintenanceStatus
  priority : MaintenancePriority
  roomId : String
  completedDate : Option Nat
deriving DecidableEq, Repr

structure Document where
  id : String
  renterId : String
deriving DecidableEq, Repr

/-- One (resource, action) pair granted by a role, i.e. one row of the
permission table reached through `rolePermissions`. -/
structure PermissionPair where
  resource : String
  action : String
deriving DecidableEq, Repr

/-- A role row together with its permission rows (the
`role -> rolePermissions -> permission` include chain flattened). -/
structure RoleRec where
  name : String
  rolePermissions : List PermissionPair
deriving DecidableEq, Repr

/-- The persistent store: one list per Prisma model used by the verified
operations. -/
structure Store where
  properties : List Property
  rooms : List Room
  renters : List Renter
  contracts : List Contract
  payments : List Payment
  maintenanceEvents : List MaintenanceEvent
  documents : List Document
  roles : List RoleRec
deriving DecidableEq, Repr

/-- The GraphQL context user: id and a single role string, as produced by
the token-verification collaborator. -/
structure CtxUser where
  id : String
  role : String
deriving DecidableEq, Repr

/-- The request user shape consumed by src/utils/permissions.ts:
assigned roles (each with its permissions preloaded), plus the renter
self-service fields. -/
structure AuthUser where
  id : String
  userRoles : List RoleRec
  isRenter : Bool
  renterId : Option String
deriving DecidableEq, Repr

/-- Status of a room by id (`findUnique` on the room table projected to
`status`). -/
def roomStatus (s : Store) (roomId : String) : Option RoomStatus :=
  (s.rooms.find? (fun r => r.id == roomId)).map Room.status

/-- Room update used by the lifecycle operations:
`prisma.room.update({where: {id}, data: {status}})`. -/
def setRoomStatus (s : Store) (roomId : String) (st : RoomStatus) : Store :=
  { s with rooms := s.rooms.map (fun r => if r.id == roomId then { r with status := st } else r) }

namespace Permissions

/-- hasPermission from src/utils/permissions.ts: ADMIN role short-circuits,
then any role carrying the exact (resource, action) pair, then the renter
self-service special case for ('renter', 'read'). -/
def hasPermission (user : AuthUser) (resource : String) (action : String) : Bool :=
  if user.userRoles.any (fun ur => ur.name == "ADMIN") then true
  else if user.userRoles.any (fun ur =>
      ur.rolePermissions.any (fun rp => rp.resource == resource && rp.action == action)) then true
  else if user.isRenter && resource == "renter" && action == "read" then true
  else false

/-- hasRenterAccess from src/utils/permissions.ts: ADMIN sees all; a
renter-flagged user is compared by its own stored renterId (no store
lookup); a PROPERTY_MANAGER walks renter -> room -> property -> userId;
everyone else is denied. -/
def hasRenterAccess (s : Store) (user : AuthUser) (renterId : String) : Bool :=
  if user.userRoles.any (fun ur => ur.name == "ADMIN") then true
  else if user.isRenter then user.renterId == some renterId
  else if user.userRoles.any (fun ur => ur.name == "PROPERTY_MANAGER") then
    match s.renters.find? (fun r => r.id == renterId) with
    | none => false
    | some renter =>
      match renter.roomId with
      | none => false
      | some rid =>
        match s.rooms.find? (fun r => r.id == rid) with
        | none => false
        | some room =>
          match s.properties.find? (fun p => p.id == room.propertyId) with
          | none => false
          | some prop => prop.userId == user.id
  else false

end Permissions

namespace Rules

/-- RoleRegistry lookup inside the permission rule of
src/graphql/permissions (part_009): `prisma.role.findFirst` for a role of
this name owning the (resource, action) permission, coerced to Bool. -/
def grants (s : Store) (roleName : String) (resource : String) (action : String) : Bool :=
  s.roles.any (fun r =>
    r.name == roleName &&
    r.rolePermissions.any (fun rp => rp.resource == resource && rp.action == action))

/-- hasPermission rule (part_009): unauthenticated throws, ADMIN is always
allowed, otherwise the role table decides. -/
def hasPermission (s : Store) (user : Option CtxUser) (resource : String)
    (action : String) : Except String Bool :=
  match user with
  | none => Except.error "Authentication required"
  | some u =>
    if u.role == "ADMIN" then Except.ok true
    else Except.ok (grants s u.role resource action)

/-- Owner of a room via its property:
`room?.property?.userId` as one optional chain. -/
def roomOwner (s : Store) (roomId : String) : Option String :=
  match s.rooms.find? (fun r => r.id == roomId) with
  | none => none
  | some room => (s.properties.find? (fun p => p.id == room.propertyId)).map Property.userId

/-- The per-resource optional ownership chains of the isOwner switch
(part_009): property's own userId, room via property, renter via linked
user account, document via its renter's linked user, contract via its
room's property; any other resource kind resolves to no owner. -/
def ownerOf (s : Store) (resource : String) (resourceId : String) : Option String :=
  if resource == "property" then
    (s.properties.find? (fun p => p.id == resourceId)).map Property.userId
  else if resource == "room" then
    roomOwner s resourceId
  else if resource == "renter" then
    (s.renters.find? (fun r => r.id == resourceId)).bind Renter.userId
  else if resource == "document" then
    (s.documents.find? (fun d => d.id == resourceId)).bind
      (fun d => (s.renters.find? (fun r => r.id == d.renterId)).bind Renter.userId)
  else if resource == "contract" then
    (s.contracts.find? (fun c => c.id == resourceId)).bind (fun c => roomOwner s c.roomId)
  else none

/-- isOwner rule (part_009): unauthenticated throws, ADMIN owns
everything, a missing id parameter denies, otherwise the resolved chain is
compared with the caller's id (a broken or empty chain compares unequal,
exactly as `undefined === user.id` is false). -/
def isOwner (s : Store) (user : Option CtxUser) (resource : String)
    (resourceId : Option String) : Except String Bool :=
  match user with
  | none => Except.error "Authentication required"
  | some u =>
    if u.role == "ADMIN" then Except.ok true
    else
      match resourceId with
      | none => Except.ok false
      | some rid => Except.ok (ownerOf s resource rid == some u.id)

/-- canAccessRenter rule (part_009): ADMIN sees all; a PROPERTY_MANAGER is
allowed when some contract of the renter is for a room in a property the
caller owns; a USER is allowed when the renter's linked account is the
caller; other roles are denied, as is a missing renter. -/
def canAccessRenter (s : Store) (user : Option CtxUser)
    (renterId : Option String) : Except String Bool :=
  match user with
  | none => Except.error "Authentication required"
  | some u =>
    if u.role == "ADMIN" then Except.ok true
    else
      match renterId with
      | none => Except.ok false
      | some rid =>
        if u.role == "PROPERTY_MANAGER" then
          Except.ok (match s.renters.find? (fun r => r.id == rid) with
            | none => false
            | some _ =>
              (s.contracts.filter (fun c => c.renterIds.contains rid)).any
                (fun c => roomOwner s c.roomId == some u.id))
        else if u.role == "USER" then
          Except.ok ((s.renters.find? (fun r => r.id == rid)).bind Renter.userId == some u.id)
        else Except.ok false

/-- The PermissionEvaluator of the design (section 4.3, steps 1 to 3),
assembled from the module's rule functions with its `or` combinator:
Allow on a role grant, otherwise defer to ownership. -/
def authorize (s : Store) (user : Option CtxUser) (resource : String)
    (action : String) (resourceId : Option String) : Except String Bool :=
  match hasPermission s user resource action with
  | Except.error e => Except.error e
  | Except.ok true => Except.ok true
  | Except.ok false => isOwner s user resource resourceId

end Rules

/-- Patch accepted by updateRoom (the mutable room columns the claims
reason about). -/
structure RoomPatch where
  name : Option String
  status : Option RoomStatus
  price : Option Int
deriving DecidableEq, Repr

def applyRoomPatch (r : Room) (p : RoomPatch) : Room :=
  { r with
    name := p.name.getD r.name
    status := p.status.getD r.status
    price := p.price.getD r.price }

/-- updateRoom resolver (part_012, identically part_011): it runs
`prisma.room.update` directly.  The source consults nothing about the
caller, hence the ignored user argument; a missing id is Prisma error
P2025. -/
def updateRoom (s : Store) (_user : Option CtxUser) (id : String)
    (input : RoomPatch) : Store × Except Err Room :=
  match s.rooms.find? (fun r => r.id == id) with
  | none => (s, Except.error (Err.mk ErrKind.notFound "Record to update not found"))
  | some r =>
    let updated := applyRoomPatch r input
    ({ s with rooms := s.rooms.map (fun x => if x.id == id then updated else x) },
     Except.ok updated)

/-- Lower-cased status interpolated into the createContract conflict
message (`room.status.toLowerCase()`). -/
def roomStatusLower : RoomStatus → String
  | RoomStatus.AVAILABLE => "available"
  | RoomStatus.OCCUPIED => "occupied"
  | RoomStatus.RESERVED => "reserved"
  | RoomStatus.MAINTENANCE => "maintenance"

/-- Lower-cased status interpolated into the terminateContract conflict
message (`contract.status.toLowerCase()`). -/
def contractStatusLower : ContractStatus → String
  | ContractStatus.PENDING => "pending"
  | ContractStatus.ACTIVE => "active"
  | ContractStatus.EXPIRED => "expired"
  | ContractStatus.TERMINATED => "terminated"

/-- Input of createContract.  Every field the resolver's required-field
loop inspects is optional here; absence is `none`, and the loop's JS
truthiness test also rejects an empty name, an empty roomId and a zero
amount. -/
structure ContractInput where
  name : Option String
  renterIds : Option (List String)
  roomId : Option String
  startDate : Option Nat
  endDate : Option Nat
  amount : Option Int
  status : Option ContractStatus
deriving DecidableEq, Repr

/-- createContract resolver (part_013, lines 145-233).  Sequential
structure of the source: authentication, the required-field loop in
source order, the non-empty renter list check, then the transaction body:
room lookup, AVAILABLE check, renter existence via `findMany({id: {in:
renterIds}})` compared by length, room set to OCCUPIED, contract created
with the requested fields (status defaulting to ACTIVE per the Prisma
schema).  `freshId` stands for the generated nanoid. -/
def createContract (s : Store) (user : Option CtxUser) (freshId : String)
    (input : ContractInput) : Store × Except Err Contract :=
  match user with
  | none => (s, Except.error (Err.mk ErrKind.unauthenticated "You must be authenticated to create a contract"))
  | some _ =>
    match input.name with
    | none => (s, Except.error (Err.mk ErrKind.validation "Name is required"))
    | some nm =>
      if nm == "" then (s, Except.error (Err.mk ErrKind.validation "Name is required"))
      else match input.renterIds with
      | none => (s, Except.error (Err.mk ErrKind.validation "Renter is required"))
      | some rids =>
        match input.roomId with
        | none => (s, Except.error (Err.mk ErrKind.validation "Room is required"))
        | some rmId =>
          if rmId == "" then (s, Except.error (Err.mk ErrKind.validation "Room is required"))
          else match input.startDate with
          | none => (s, Except.error (Err.mk ErrKind.validation "Start date is required"))
          | some sd =>
            match input.endDate with
            | none => (s, Except.error (Err.mk ErrKind.validation "End date is required"))
            | some ed =>
              match input.amount with
              | none => (s, Except.error (Err.mk ErrKind.validation "Amount is required"))
              | some amt =>
                if amt == 0 then (s, Except.error (Err.mk ErrKind.validation "Amount is required"))
                else if rids.length == 0 then
                  (s, Except.error (Err.mk ErrKind.validation "At least one renter is required"))
                else match s.rooms.find? (fun r => r.id == rmId) with
                | none => (s, Except.error (Err.mk ErrKind.notFound "Room not found"))
                | some room =>
                  if room.status != RoomStatus.AVAILABLE then
                    (s, Except.error (Err.mk ErrKind.conflict
                      ("Room is currently " ++ roomStatusLower room.status)))
                  else
                    let foundRenters := s.renters.filter (fun r => rids.contains r.id)
                    if foundRenters.length != rids.length then
                      (s, Except.error (Err.mk ErrKind.notFound "One or more renters not found"))
                    else
                      let s1 := setRoomStatus s rmId RoomStatus.OCCUPIED
                      let created : Contract :=
                        { id := freshId
                          name := nm
                          roomId := rmId
                          renterIds := rids
                          startDate := some sd
                          endDate := some ed
                          amount := amt
                          status := input.status.getD ContractStatus.ACTIVE
                          terminationReason := none
                          terminationDate := none }
                      ({ s1 with contracts := s1.contracts ++ [created] }, Except.ok created)

/-- Patch accepted by updateContract (`data: input`): the mutable contract
columns the claims reason about. -/
structure ContractPatch where
  name : Option String
  startDate : Option Nat
  endDate : Option Nat
  amount : Option Int
  status : Option ContractStatus
deriving DecidableEq, Repr

def applyContractPatch (c : Contract) (p : ContractPatch) : Contract :=
  { c with
    name := p.name.getD c.name
    startDate := match p.startDate with | some d => some d | none => c.startDate
    endDate := match p.endDate with | some d => some d | none => c.endDate
    amount := p.amount.getD c.amount
    status := p.status.getD c.status }

/-- The `prisma.contract.count` query shared by updateContract and
terminateContract: other contracts (`id: {not: id}`) on the given room
having at least one renter among the given renter ids.  The source query
carries no status filter. -/
def otherSharedContractCount (contracts : List Contract) (id : String)
    (roomId : String) (renterIds : List String) : Nat :=
  (contracts.filter (fun c =>
    c.id != id && c.roomId == roomId &&
    c.renterIds.any (fun r => renterIds.contains r))).length

/-- updateContract resolver (part_013, lines 236-303): contract lookup,
then in a transaction the patch is applied and, when the patch moves the
status into TERMINATED or EXPIRED, the room is released exactly when the
shared-renter count is zero. -/
def updateContract (s : Store) (user : Option CtxUser) (id : String)
    (input : ContractPatch) : Store × Except Err Contract :=
  match user with
  | none => (s, Except.error (Err.mk ErrKind.unauthenticated "You must be authenticated to update a contract"))
  | some _ =>
    match s.contracts.find? (fun c => c.id == id) with
    | none => (s, Except.error (Err.mk ErrKind.notFound "Contract not found"))
    | some c =>
      let updated := applyContractPatch c input
      let s1 := { s with contracts := s.contracts.map (fun x => if x.id == id then updated else x) }
      if input.status == some ContractStatus.TERMINATED || input.status == some ContractStatus.EXPIRED then
        if otherSharedContractCount s1.contracts id updated.roomId updated.renterIds == 0 then
          (setRoomStatus s1 updated.roomId RoomStatus.AVAILABLE, Except.ok updated)
        else (s1, Except.ok updated)
      else (s1, Except.ok updated)

/-- deleteContract resolver (part_013, lines 306-342): lookup, refusal
when any payment references the contract, then plain deletion.  The room
is never touched. -/
def deleteContract (s : Store) (user : Option CtxUser) (id : String) :
    Store × Except Err Bool :=
  match user with
  | none => (s, Except.error (Err.mk ErrKind.unauthenticated "You must be authenticated to delete a contract"))
  | some _ =>
    match s.contracts.find? (fun c => c.id == id) with
    | none => (s, Except.error (Err.mk ErrKind.notFound "Contract not found"))
    | some _ =>
      if (s.payments.filter (fun p => p.contractId == some id)).length > 0 then
        (s, Except.error (Err.mk ErrKind.conflict
          "Cannot delete a contract with associated payments. Terminate it instead."))
      else
        ({ s with contracts := s.contracts.filter (fun c => c.id != id) }, Except.ok true)

/-- terminateContract resolver (part_013, lines 345-434): reason required
(JS truthiness, so an empty string is also rejected), lookup, refusal on
an already terminal status, then in a transaction the contract is stamped
TERMINATED with reason and date and the room is released exactly when the
shared-renter count is zero. -/
def terminateContract (s : Store) (user : Option CtxUser) (id : String)
    (reason : Option String) (terminationDate : Nat) : Store × Except Err Contract :=
  match user with
  | none => (s, Except.error (Err.mk ErrKind.unauthenticated "You must be authenticated to terminate a contract"))
  | some _ =>
    match reason with
    | none => (s, Except.error (Err.mk ErrKind.validation "Termination reason is required"))
    | some rsn =>
      if rsn == "" then (s, Except.error (Err.mk ErrKind.validation "Termination reason is required"))
      else match s.contracts.find? (fun c => c.id == id) with
      | none => (s, Except.error (Err.mk ErrKind.notFound "Contract not found"))
      | some c =>
        if c.status == ContractStatus.TERMINATED || c.status == ContractStatus.EXPIRED then
          (s, Except.error (Err.mk ErrKind.conflict
            ("Contract is already " ++ contractStatusLower c.status)))
        else
          let updated := { c with
            status := ContractStatus.TERMINATED
            terminationReason := some rsn
            terminationDate := some terminationDate }
          let s1 := { s with contracts := s.contracts.map (fun x => if x.id == id then updated else x) }
          if otherSharedContractCount s1.contracts id c.roomId updated.renterIds == 0 then
            (setRoomStatus s1 c.roomId RoomStatus.AVAILABLE, Except.ok updated)
          else (s1, Except.ok updated)

/-- An ACTIVE contract referencing the room exists (the right-hand side of
invariant R1). -/
def hasActiveContract (s : Store) (roomId : String) : Bool :=
  s.contracts.any (fun c => c.roomId == roomId && c.status == ContractStatus.ACTIVE)

/-- Invariant R1 of the design: every room is OCCUPIED exactly when an
ACTIVE contract references it. -/
def invariantR1 (s : Store) : Bool :=
  s.rooms.all (fun r => decide (r.status = RoomStatus.OCCUPIED) == hasActiveContract s r.id)

/-- Maintenance status strings accepted by the store's enum column.  The
GraphQL input declares status and priority as plain String and the
resolver narrows them with a compile-time-only `as` cast, so any string
reaches the write; the column's enum type rejects the invalid ones. -/
def parseMaintenanceStatusStr : String → Option MaintenanceStatus
  | "PENDING" => some MaintenanceStatus.PENDING
  | "IN_PROGRESS" => some MaintenanceStatus.IN_PROGRESS
  | "COMPLETED" => some MaintenanceStatus.COMPLETED
  | "CANCELLED" => some MaintenanceStatus.CANCELLED
  | _ => none

def parseMaintenancePriorityStr : String → Option MaintenancePriority
  | "LOW" => some MaintenancePriority.LOW
  | "MEDIUM" => some MaintenancePriority.MEDIUM
  | "HIGH" => some MaintenancePriority.HIGH
  | "URGENT" => some MaintenancePriority.URGENT
  | _ => none

/-- Patch accepted by updateMaintenanceEvent: status and priority as raw
strings exactly as the GraphQL input carries them, plus the completedDate
the COMPLETED transition inspects. -/
structure MaintenancePatch where
  status : Option String
  priority : Option String
  completedDate : Option Nat
deriving DecidableEq, Repr

/-- The `prisma.maintenanceEvent.update({data: input})` write: the store
applies the patch, rejecting a status or priority string outside the
schema's enum (Prisma raises a data-validation error and no row is
written). -/
def applyMaintenancePatch (e : MaintenanceEvent) (p : MaintenancePatch) :
    Except Err MaintenanceEvent :=
  match p.status with
  | some st =>
    match parseMaintenanceStatusStr st with
    | none => Except.error (Err.mk ErrKind.storeError "Invalid value for enum MaintenanceStatus")
    | some stv =>
      match p.priority with
      | some pr =>
        match parseMaintenancePriorityStr pr with
        | none => Except.error (Err.mk ErrKind.storeError "Invalid value for enum MaintenancePriority")
        | some prv =>
          Except.ok { e with
            status := stv
            priority := prv
            completedDate := (match p.completedDate with | some d => some d | none => e.completedDate) }
      | none =>
        Except.ok { e with
          status := stv
          completedDate := (match p.completedDate with | some d => some d | none => e.completedDate) }
  | none =>
    match p.priority with
    | some pr =>
      match parseMaintenancePriorityStr pr with
      | none => Except.error (Err.mk ErrKind.storeError "Invalid value for enum MaintenancePriority")
      | some prv =>
        Except.ok { e with
          priority := prv
          completedDate := (match p.completedDate with | some d => some d | none => e.completedDate) }
    | none => Except.ok { e with
        completedDate := (match p.completedDate with | some d => some d | none => e.completedDate) }

/-- handleStatusTransition (maintenance.resolvers.ts, lines 312-337): when
the patch moves the status to COMPLETED and carries no completedDate, the
current time is written into the patch and, inside that same branch, a
room currently in MAINTENANCE is reverted to AVAILABLE; when the patch
moves the status to IN_PROGRESS on an event not already IN_PROGRESS, the
room is set to MAINTENANCE.  Both room writes go straight to the store:
the caller wraps nothing in a transaction. -/
def handleStatusTransition (s : Store) (now : Nat) (input : MaintenancePatch)
    (e : MaintenanceEvent) (roomSt : RoomStatus) : MaintenancePatch × Store :=
  let step1 : MaintenancePatch × Store :=
    if input.status == some "COMPLETED" && input.completedDate == none then
      ({ input with completedDate := some now },
       if roomSt == RoomStatus.MAINTENANCE then setRoomStatus s e.roomId RoomStatus.AVAILABLE
       else s)
    else (input, s)
  if step1.fst.status == some "IN_PROGRESS" && e.status != MaintenanceStatus.IN_PROGRESS then
    (step1.fst, setRoomStatus step1.snd e.roomId RoomStatus.MAINTENANCE)
  else step1

/-- updateMaintenanceEvent resolver (maintenance.resolvers.ts, lines
201-250): authentication, event lookup (with its room included; the
schema's foreign key makes the room branch total), handleStatusTransition
with its immediate room writes, then the event update.  The resolver uses
no transaction, so when the event update fails the room writes already
performed by handleStatusTransition persist in the returned store. -/
def updateMaintenanceEvent (s : Store) (user : Option CtxUser) (now : Nat)
    (id : String) (input : MaintenancePatch) : Store × Except Err MaintenanceEvent :=
  match user with
  | none => (s, Except.error (Err.mk ErrKind.unauthenticated "You must be authenticated to update a maintenance event"))
  | some _ =>
    match s.maintenanceEvents.find? (fun e => e.id == id) with
    | none => (s, Except.error (Err.mk ErrKind.notFound "Maintenance event not found"))
    | some e =>
      match s.rooms.find? (fun r => r.id == e.roomId) with
      | none => (s, Except.error (Err.mk ErrKind.storeError "included room missing"))
      | some room =>
        let step := handleStatusTransition s now input e room.status
        match applyMaintenancePatch e step.fst with
        | Except.error err => (step.snd, Except.error err)
        | Except.ok e2 =>
          ({ step.snd with maintenanceEvents :=
              step.snd.maintenanceEvents.map (fun x => if x.id == id then e2 else x) },
           Except.ok e2)

/-- Input of createMaintenanceEvent; title, description and roomId are the
required-field loop's targets, status and priority arrive as raw
strings. -/
structure MaintenanceInput where
  title : Option String
  description : Option String
  roomId : Option String
  status : Option String
  priority : Option String
deriving DecidableEq, Repr

/-- createMaintenanceEvent resolver (maintenance.resolvers.ts, lines
133-198): required fields, room lookup, an immediate room write to
MAINTENANCE when the requested status is IN_PROGRESS, then the event
creation (status defaulting to PENDING and priority to MEDIUM per the
schema).  No transaction: a creation failure keeps the room write. -/
def createMaintenanceEvent (s : Store) (user : Option CtxUser) (freshId : String)
    (input : MaintenanceInput) : Store × Except Err MaintenanceEvent :=
  match user with
  | none => (s, Except.error (Err.mk ErrKind.unauthenticated "You must be authenticated to create a maintenance event"))
  | some _ =>
    match input.title with
    | none => (s, Except.error (Err.mk ErrKind.validation "Title is required"))
    | some ttl =>
      if ttl == "" then (s, Except.error (Err.mk ErrKind.validation "Title is required"))
      else match input.description with
      | none => (s, Except.error (Err.mk ErrKind.validation "Description is required"))
      | some dsc =>
        if dsc == "" then (s, Except.error (Err.mk ErrKind.validation "Description is required"))
        else match input.roomId with
        | none => (s, Except.error (Err.mk ErrKind.validation "Room ID is required"))
        | some rmId =>
          if rmId == "" then (s, Except.error (Err.mk ErrKind.validation "Room ID is required"))
          else match s.rooms.find? (fun r => r.id == rmId) with
          | none => (s, Except.error (Err.mk ErrKind.notFound "Room not found"))
          | some _ =>
            let s1 := if input.status == some "IN_PROGRESS" then
                setRoomStatus s rmId RoomStatus.MAINTENANCE
              else s
            let stv : Except Err MaintenanceStatus :=
              match input.status with
              | none => Except.ok MaintenanceStatus.PENDING
              | some st =>
                match parseMaintenanceStatusStr st with
                | none => Except.error (Err.mk ErrKind.storeError "Invalid value for enum MaintenanceStatus")
                | some v => Except.ok v
            let prv : Except Err MaintenancePriority :=
              match input.priority with
              | none => Except.ok MaintenancePriority.MEDIUM
              | some pr =>
                match parseMaintenancePriorityStr pr with
                | none => Except.error (Err.mk ErrKind.storeError "Invalid value for enum MaintenancePriority")
                | some v => Except.ok v
            match stv with
            | Except.error err => (s1, Except.error err)
            | Except.ok stv2 =>
              match prv with
              | Except.error err => (s1, Except.error err)
              | Except.ok prv2 =>
                let created : MaintenanceEvent :=
                  { id := freshId, title := ttl, status := stv2, priority := prv2,
                    roomId := rmId, completedDate := none }
                ({ s1 with maintenanceEvents := s1.maintenanceEvents ++ [created] },
                 Except.ok created)

/-- deletePayment resolver (payment.resolvers.ts, lines 287-322):
authentication, lookup, refusal when the payment is PAID, then plain
deletion. -/
def deletePayment (s : Store) (user : Option CtxUser) (id : String) :
    Store × Except Err Bool :=
  match user with
  | none => (s, Except.error (Err.mk ErrKind.unauthenticated "You must be authenticated to delete a payment"))
  | some _ =>
    match s.payments.find? (fun p => p.id == id) with
    | none => (s, Except.error (Err.mk ErrKind.notFound "Payment not found"))
    | some p =>
      if p.status == PaymentStatus.PAID then
        (s, Except.error (Err.mk ErrKind.conflict
          "Cannot delete a payment that has been paid. Change its status instead."))
      else
        ({ s with payments := s.payments.filter (fun q => q.id != id) }, Except.ok true)

/-- markPaymentAsPaid resolver (payment.resolvers.ts, lines 325-381):
authentication, lookup, refusal when already PAID, otherwise status PAID,
paidDate from the argument (defaulting to now at the parameter binding)
and description from the reference when that is truthy. -/
def markPaymentAsPaid (s : Store) (user : Option CtxUser) (now : Nat) (id : String)
    (paidDate : Option Nat) (reference : Option String) : Store × Except Err Payment :=
  match user with
  | none => (s, Except.error (Err.mk ErrKind.unauthenticated "You must be authenticated to mark a payment as paid"))
  | some _ =>
    match s.payments.find? (fun p => p.id == id) with
    | none => (s, Except.error (Err.mk ErrKind.notFound "Payment not found"))
    | some p =>
      if p.status == PaymentStatus.PAID then
        (s, Except.error (Err.mk ErrKind.conflict "Payment has already been marked as paid"))
      else
        let upd : Payment := { p with
          status := PaymentStatus.PAID
          paidDate := some (paidDate.getD now)
          description := match reference with
            | some r => if r == "" then p.description else some r
            | none => p.description }
        ({ s with payments := s.payments.map (fun q => if q.id == id then upd else q) },
         Except.ok upd)

/-- Boolean form of the shared-renter query: some other contract (any
status) on the room shares a renter.  `otherSharedContractCount` is zero
exactly when this is false. -/
def existsOtherSharedContract (contracts : List Contract) (id : String)
    (roomId : String) (renterIds : List String) : Bool :=
  contracts.any (fun c =>
    c.id != id && c.roomId == roomId &&
    c.renterIds.any (fun r => renterIds.contains r))

/-- A store with no records at all. -/
def emptyStore : Store :=
  { properties := [], rooms := [], renters := [], contracts := [], payments := [],
    maintenanceEvents := [], documents := [], roles := [] }

/-- An arbitrary authenticated caller for operations that only test
authentication. -/
def someUser : CtxUser := { id := "u0", role := "USER" }

/-- Fixture for R1: one OCCUPIED room whose single contract is ACTIVE. -/
def storeC1 : Store :=
  { properties := [{ id := "p1", userId := "u2" }]
    rooms := [{ id := "r1", name := "Room A", status := RoomStatus.OCCUPIED, price := 100, propertyId := "p1" }]
    renters := [{ id := "x1", name := "Renter X", roomId := some "r1", userId := none }]
    contracts := [{ id := "c1", name := "Lease", roomId := "r1", renterIds := ["x1"],
                    startDate := some 1, endDate := some 2, amount := 500,
                    status := ContractStatus.ACTIVE, terminationReason := none, terminationDate := none }]
    payments := [], maintenanceEvents := [], documents := [], roles := [] }

/-- Fixture for createContract: one AVAILABLE room and one renter. -/
def storeC2 : Store :=
  { properties := [{ id := "p1", userId := "u2" }]
    rooms := [{ id := "r1", name := "Room A", status := RoomStatus.AVAILABLE, price := 100, propertyId := "p1" }]
    renters := [{ id := "x1", name := "Renter X", roomId := none, userId := none }]
    contracts := [], payments := [], maintenanceEvents := [], documents := [], roles := [] }

/-- createContract input whose renter list names the same existing renter
twice. -/
def inputC2dup : ContractInput :=
  { name := some "Lease", renterIds := some ["x1", "x1"], roomId := some "r1",
    startDate := some 1, endDate := some 2, amount := some 500, status := none }

/-- Fixture for room release: the ACTIVE contract c1 shares renter x1 with
the TERMINATED contract c2 on the same room. -/
def storeC3 : Store :=
  { properties := [{ id := "p1", userId := "u2" }]
    rooms := [{ id := "r1", name := "Room A", status := RoomStatus.OCCUPIED, price := 100, propertyId := "p1" }]
    renters := [{ id := "x1", name := "Renter X", roomId := some "r1", userId := none }]
    contracts := [{ id := "c1", name := "Lease 1", roomId := "r1", renterIds := ["x1"],
                    startDate := some 1, endDate := some 2, amount := 500,
                    status := ContractStatus.ACTIVE, terminationReason := none, terminationDate := none },
                  { id := "c2", name := "Lease 0", roomId := "r1", renterIds := ["x1"],
                    startDate := some 0, endDate := some 1, amount := 400,
                    status := ContractStatus.TERMINATED, terminationReason := some "old", terminationDate := some 1 }]
    payments := [], maintenanceEvents := [], documents := [], roles := [] }

/-- Fixture for maintenance atomicity: an AVAILABLE room with a PENDING
event. -/
def storeC4 : Store :=
  { properties := [{ id := "p1", userId := "u2" }]
    rooms := [{ id := "r1", name := "Room A", status := RoomStatus.AVAILABLE, price := 100, propertyId := "p1" }]
    renters := [], contracts := [], payments := []
    maintenanceEvents := [{ id := "m1", title := "Fix sink", status := MaintenanceStatus.PENDING,
                            priority := MaintenancePriority.MEDIUM, roomId := "r1", completedDate := none }]
    documents := [], roles := [] }

/-- Fixture for authorization: room r1 sits in a property owned by u2,
and the USER role is granted the generic room:update permission. -/
def storeRoomAuth : Store :=
  { properties := [{ id := "p1", userId := "u2" }]
    rooms := [{ id := "r1", name := "Room A", status := RoomStatus.AVAILABLE, price := 100, propertyId := "p1" }]
    renters := [], contracts := [], payments := [], maintenanceEvents := [], documents := []
    roles := [{ name := "USER", rolePermissions := [{ resource := "room", action := "update" }] }] }

/-- A caller with role USER who is not u2 (hence not the owner of p1). -/
def userPlain : CtxUser := { id := "u1", role := "USER" }

/-- Fixture for the COMPLETED transition: a MAINTENANCE room with an
IN_PROGRESS event. -/
def storeC7 : Store :=
  { properties := [{ id := "p1", userId := "u2" }]
    rooms := [{ id := "r1", name := "Room A", status := RoomStatus.MAINTENANCE, price := 100, propertyId := "p1" }]
    renters := [], contracts := [], payments := []
    maintenanceEvents := [{ id := "m1", title := "Fix sink", status := MaintenanceStatus.IN_PROGRESS,
                            priority := MaintenancePriority.MEDIUM, roomId := "r1", completedDate := none }]
    documents := [], roles := [] }

/-- Fixture for payment immutability: one PAID payment. -/
def storeC8 : Store :=
  { properties := [], rooms := []
    renters := [{ id := "x1", name := "Renter X", roomId := none, userId := none }]
    contracts := []
    payments := [{ id := "pay1", renterId := "x1", contractId := none, amount := 500,
                   status := PaymentStatus.PAID, paidDate := some 10, description := some "rent" }]
    maintenanceEvents := [], documents := [], roles := [] }

/-- A renter-flagged request user whose stored renterId names no renter
record. -/
def userGhostRenter : AuthUser :=
  { id := "u1", userRoles := [], isRenter := true, renterId := some "ghost" }

/-- C1: invariant R1 is not maintained: deleting the only ACTIVE contract
of an OCCUPIED room succeeds and leaves the room OCCUPIED with no ACTIVE
contract, so R1 holds before the call and fails immediately after. -/
theorem deleteContract_breaks_R1 :
    invariantR1 storeC1 = true ∧
    (deleteContract storeC1 (some someUser) "c1").snd = Except.ok true ∧
    roomStatus (deleteContract storeC1 (some someUser) "c1").fst "r1" = some RoomStatus.OCCUPIED ∧
    hasActiveContract (deleteContract storeC1 (some someUser) "c1").fst "r1" = false ∧
    invariantR1 (deleteContract storeC1 (some someUser) "c1").fst = false := by
  exact ⟨rfl, rfl, rfl, rfl, rfl⟩

/-- C4: updateMaintenanceEvent is not atomic: a patch moving the status to
IN_PROGRESS together with an invalid priority string first sets the room
to MAINTENANCE and then fails at the event write; the returned store
keeps the room change while the event is untouched, so a failed call does
not leave every touched entity as before. -/
theorem updateMaintenanceEvent_not_atomic :
    roomStatus storeC4 "r1" = some RoomStatus.AVAILABLE ∧
    (updateMaintenanceEvent storeC4 (some someUser) 100 "m1"
        { status := some "IN_PROGRESS", priority := some "TOP", completedDate := none }).snd =
      Except.error (Err.mk ErrKind.storeError "Invalid value for enum MaintenancePriority") ∧
    roomStatus (updateMaintenanceEvent storeC4 (some someUser) 100 "m1"
        { status := some "IN_PROGRESS", priority := some "TOP", completedDate := none }).fst "r1" =
      some RoomStatus.MAINTENANCE ∧
    (updateMaintenanceEvent storeC4 (some someUser) 100 "m1"
        { status := some "IN_PROGRESS", priority := some "TOP", completedDate := none }).fst.maintenanceEvents =
      storeC4.maintenanceEvents := by
  exact ⟨rfl, rfl, rfl, rfl⟩

/-- C6: updateRoom applies the update with no authorization check: the
caller has role USER, the USER role does carry the generic room:update
permission, the caller does not own the property containing r1, and the
call still succeeds and changes the room. -/
theorem updateRoom_no_authorization :
    userPlain.role = "USER" ∧
    Rules.grants storeRoomAuth "USER" "room" "update" = true ∧
    Rules.ownerOf storeRoomAuth "room" "r1" = some "u2" ∧
    userPlain.id ≠ "u2" ∧
    (updateRoom storeRoomAuth (some userPlain) "r1"
        { name := none, status := some RoomStatus.RESERVED, price := none }).snd =
      Except.ok { id := "r1", name := "Room A", status := RoomStatus.RESERVED, price := 100, propertyId := "p1" } ∧
    roomStatus (updateRoom storeRoomAuth (some userPlain) "r1"
        { name := none, status := some RoomStatus.RESERVED, price := none }).fst "r1" =
      some RoomStatus.RESERVED := by
  refine ⟨rfl, rfl, rfl, ?_, rfl, rfl⟩
  decide

/-- C2 counterexample: the room is AVAILABLE and every id in the renter
list names an existing renter, yet createContract fails, because the
duplicated id makes the findMany length check miscount. -/
theorem createContract_duplicate_renterIds_cex :
    roomStatus storeC2 "r1" = some RoomStatus.AVAILABLE ∧
    (["x1", "x1"] : List String).all (fun i => storeC2.renters.any (fun r => r.id == i)) = true ∧
    createContract storeC2 (some someUser) "c9" inputC2dup =
      (storeC2, Except.error (Err.mk ErrKind.notFound "One or more renters not found")) := by
  exact ⟨rfl, rfl, rfl⟩

/-- C3 counterexample: terminating c1 succeeds while no other ACTIVE
contract on the room shares a renter with it, yet the room is not
released, because the TERMINATED sibling c2 is counted by the
status-blind query. -/
theorem terminateContract_blocked_by_inactive_sibling_cex :
    (storeC3.contracts.filter (fun c =>
      c.id != "c1" && c.roomId == "r1" && c.status == ContractStatus.ACTIVE &&
      c.renterIds.any (fun r => (["x1"] : List String).contains r))).length = 0 ∧
    (terminateContract storeC3 (some someUser) "c1" (some "non-payment") 100).snd.isOk = true ∧
    roomStatus (terminateContract storeC3 (some someUser) "c1" (some "non-payment") 100).fst "r1" =
      some RoomStatus.OCCUPIED := by
  exact ⟨rfl, rfl, rfl⟩

/-- C5 counterexample: the caller's role is USER (not the super role) and
the resolved owner of room r1 is u2, not the caller, yet authorize
returns Allow because the USER role carries the generic room:update
grant. -/
theorem authorize_granted_nonowner_allowed_cex :
    userPlain.role ≠ "ADMIN" ∧
    Rules.ownerOf storeRoomAuth "room" "r1" = some "u2" ∧
    userPlain.id ≠ "u2" ∧
    Rules.authorize storeRoomAuth (some userPlain) "room" "update" (some "r1") = Except.ok true := by
  refine ⟨?_, rfl, ?_, rfl⟩ <;> decide

/-- C7 counterexample: the event is IN_PROGRESS on a MAINTENANCE room and
the patch moves it to COMPLETED with a supplied completedDate; the event
is updated but the room is left in MAINTENANCE, so the revert does depend
on whether a completedDate was supplied. -/
theorem completed_with_supplied_date_skips_revert_cex :
    roomStatus storeC7 "r1" = some RoomStatus.MAINTENANCE ∧
    (updateMaintenanceEvent storeC7 (some someUser) 100 "m1"
        { status := some "COMPLETED", priority := none, completedDate := some 50 }).snd =
      Except.ok { id := "m1", title := "Fix sink", status := MaintenanceStatus.COMPLETED,
                  priority := MaintenancePriority.MEDIUM, roomId := "r1", completedDate := some 50 } ∧
    roomStatus (updateMaintenanceEvent storeC7 (some someUser) 100 "m1"
        { status := some "COMPLETED", priority := none, completedDate := some 50 }).fst "r1" =
      some RoomStatus.MAINTENANCE := by
  exact ⟨rfl, rfl, rfl⟩

/-- C9 counterexample: the caller is not ADMIN and the renter id "ghost"
names no record in the store, yet hasRenterAccess allows it, because the
renter-flagged branch compares the caller's own stored renterId without
consulting the store. -/
theorem hasRenterAccess_missing_renter_allowed_cex :
    emptyStore.renters.any (fun r => r.id == "ghost") = false ∧
    userGhostRenter.userRoles.any (fun ur => ur.name == "ADMIN") = false ∧
    Permissions.hasRenterAccess emptyStore userGhostRenter "ghost" = true := by
  exact ⟨rfl, rfl, rfl⟩

/-- C8: a PAID payment is immutable: deletePayment and markPaymentAsPaid
both fail with the conflict errors of the source and return the store
unchanged, so the payment is neither deleted nor re-stamped. -/
theorem paid_payment_immutable (s : Store) (u : CtxUser) (now : Nat) (id : String)
    (paidDate : Option Nat) (reference : Option String) (p : Payment)
    (hfind : s.payments.find? (fun q => q.id == id) = some p)
    (hpaid : p.status = PaymentStatus.PAID) :
    deletePayment s (some u) id =
      (s, Except.error (Err.mk ErrKind.conflict
        "Cannot delete a payment that has been paid. Change its status instead.")) ∧
    markPaymentAsPaid s (some u) now id paidDate reference =
      (s, Except.error (Err.mk ErrKind.conflict "Payment has already been marked as paid")) := by
  unfold deletePayment markPaymentAsPaid
  rw [hfind]
  simp [hpaid]

/-- Witness for paid_payment_immutable at the PAID payment pay1. -/
theorem paid_payment_immutable_witness :
    deletePayment storeC8 (some someUser) "pay1" =
      (storeC8, Except.error (Err.mk ErrKind.conflict
        "Cannot delete a payment that has been paid. Change its status instead.")) ∧
    markPaymentAsPaid storeC8 (some someUser) 99 "pay1" none none =
      (storeC8, Except.error (Err.mk ErrKind.conflict "Payment has already been marked as paid")) :=
  paid_payment_immutable storeC8 someUser 99 "pay1" none none
    { id := "pay1", renterId := "x1", contractId := none, amount := 500,
      status := PaymentStatus.PAID, paidDate := some 10, description := some "rent" }
    rfl rfl

/-- C10: for any renter-flagged user, hasPermission grants renter:read
regardless of any target (the function takes none), and for such a
non-ADMIN user the per-record restriction lives solely in
hasRenterAccess, which compares the caller's own linked renterId. -/
theorem renter_read_permission_ungated (s : Store) (u : AuthUser) (target : String)
    (hr : u.isRenter = true)
    (hadmin : u.userRoles.any (fun ur => ur.name == "ADMIN") = false) :
    Permissions.hasPermission u "renter" "read" = true ∧
    Permissions.hasRenterAccess s u target = (u.renterId == some target) := by
  constructor
  · unfold Permissions.hasPermission
    rw [hadmin]
    simp [hr]
  · unfold Permissions.hasRenterAccess
    rw [hadmin]
    simp [hr]

/-- Witness for renter_read_permission_ungated at the renter-flagged
caller. -/
theorem renter_read_permission_ungated_witness :
    Permissions.hasPermission userGhostRenter "renter" "read" = true ∧
    Permissions.hasRenterAccess emptyStore userGhostRenter "r2" =
      (userGhostRenter.renterId == some "r2") :=
  renter_read_permission_ungated emptyStore userGhostRenter "r2" rfl rfl

/-- C5 amended: a subject whose role is not ADMIN, whose role is granted
nothing for (resource, action) in the role table, and who is not the
resolved owner, is denied; a subject whose role is ADMIN is always
allowed. -/
theorem authorize_soundness_amended (s : Store) (u : CtxUser) (resource action rid : String)
    (hrole : u.role ≠ "ADMIN")
    (hgrant : Rules.grants s u.role resource action = false)
    (hown : Rules.ownerOf s resource rid ≠ some u.id) :
    Rules.authorize s (some u) resource action (some rid) = Except.ok false ∧
    ∀ (v : CtxUser) (res act : String) (ridOpt : Option String), v.role = "ADMIN" →
      Rules.authorize s (some v) res act ridOpt = Except.ok true := by
  constructor
  · unfold Rules.authorize Rules.hasPermission Rules.isOwner
    simp [hrole, hgrant, hown]
  · intro v res act ridOpt hv
    unfold Rules.authorize Rules.hasPermission
    simp [hv]

/-- Witness for authorize_soundness_amended: a USER with no grants and no
ownership over r1 is denied. -/
theorem authorize_soundness_amended_witness :
    Rules.authorize emptyStore (some userPlain) "room" "update" (some "r1") = Except.ok false :=
  (authorize_soundness_amended emptyStore userPlain "room" "update" "r1"
    (by decide) rfl (by decide)).1

/-- C9 amended: for an authenticated non-ADMIN subject and an id that
names no record, isOwner (for every resource kind) and canAccessRenter
deny without throwing, and hasRenterAccess also denies unless the caller
is renter-flagged with exactly that id stored as its own renterId (the
one branch that never consults the store). -/
theorem missing_resource_denied_amended (s : Store) (rid : String) (u : CtxUser) (v : AuthUser)
    (hrole : u.role ≠ "ADMIN")
    (hprop : ∀ p ∈ s.properties, p.id ≠ rid)
    (hroom : ∀ r ∈ s.rooms, r.id ≠ rid)
    (hrent : ∀ r ∈ s.renters, r.id ≠ rid)
    (hdoc : ∀ d ∈ s.documents, d.id ≠ rid)
    (hcon : ∀ c ∈ s.contracts, c.id ≠ rid)
    (hvadmin : v.userRoles.any (fun ur => ur.name == "ADMIN") = false)
    (hvself : v.renterId ≠ some rid) :
    (∀ resource : String, Rules.isOwner s (some u) resource (some rid) = Except.ok false) ∧
    Rules.canAccessRenter s (some u) (some rid) = Except.ok false ∧
    Permissions.hasRenterAccess s v rid = false := by
  have hfp : s.properties.find? (fun p => p.id == rid) = none :=
    List.find?_eq_none.mpr (fun x hx => by simpa using hprop x hx)
  have hfr : s.rooms.find? (fun r => r.id == rid) = none :=
    List.find?_eq_none.mpr (fun x hx => by simpa using hroom x hx)
  have hfre : s.renters.find? (fun r => r.id == rid) = none :=
    List.find?_eq_none.mpr (fun x hx => by simpa using hrent x hx)
  have hfd : s.documents.find? (fun d => d.id == rid) = none :=
    List.find?_eq_none.mpr (fun x hx => by simpa using hdoc x hx)
  have hfc : s.contracts.find? (fun c => c.id == rid) = none :=
    List.find?_eq_none.mpr (fun x hx => by simpa using hcon x hx)
  have hown : ∀ resource : String, Rules.ownerOf s resource rid = none := by
    intro resource
    unfold Rules.ownerOf Rules.roomOwner
    split_ifs <;> simp [hfp, hfr, hfre, hfd, hfc]
  refine ⟨?_, ?_, ?_⟩
  · intro resource
    unfold Rules.isOwner
    simp [hrole, hown resource]
  · unfold Rules.canAccessRenter
    have hradm : (u.role == "ADMIN") = false := by simp [hrole]
    simp only [hradm, Bool.false_eq_true, if_false]
    split_ifs <;> simp [hfre]
  · unfold Permissions.hasRenterAccess
    rw [hvadmin]
    cases hv : v.isRenter
    · simp [hfre]
    · simp [hvself]

/-- Witness for missing_resource_denied_amended: the id ghost names
nothing in the empty store and each check denies. -/
theorem missing_resource_denied_amended_witness :
    Rules.isOwner emptyStore (some userPlain) "room" (some "ghost") = Except.ok false ∧
    Rules.canAccessRenter emptyStore (some userPlain) (some "ghost") = Except.ok false ∧
    Permissions.hasRenterAccess emptyStore
      { id := "u1", userRoles := [], isRenter := false, renterId := none } "ghost" = false := by
  obtain ⟨h1, h2, h3⟩ := missing_resource_denied_amended emptyStore "ghost" userPlain
    { id := "u1", userRoles := [], isRenter := false, renterId := none }
    (by decide) (by decide) (by decide) (by decide) (by decide) (by decide) rfl (by decide)
  exact ⟨h1 "room", h2, h3⟩

/-- Mapping the status update over the room list commutes with looking
the room up by id. -/
theorem find?_map_setRoom (l : List Room) (rid : String) (st : RoomStatus) :
    (l.map (fun r => if r.id == rid then { r with status := st } else r)).find?
        (fun r => r.id == rid)
      = (l.find? (fun r => r.id == rid)).map (fun r => { r with status := st }) := by
  induction l with
  | nil => rfl
  | cons a t ih =>
    by_cases h : a.id = rid
    · simp [List.find?_cons, h]
    · rw [List.map_cons]
      rw [show (if a.id == rid then { a with status := st } else a) = a from by simp [h]]
      rw [List.find?_cons_of_neg _ (by simp [h]), List.find?_cons_of_neg _ (by simp [h]), ih]

/-- Effect of setRoomStatus on the looked-up status of the same room. -/
theorem roomStatus_setRoomStatus (s : Store) (rid : String) (st : RoomStatus) :
    roomStatus (setRoomStatus s rid st) rid = (roomStatus s rid).map (fun _ => st) := by
  unfold roomStatus setRoomStatus
  rw [find?_map_setRoom]
  cases s.rooms.find? (fun r => r.id == rid) <;> rfl

/-- C7 amended: on a COMPLETED transition the completedDate defaults to
now only when the patch carries none, and the room revert to AVAILABLE
happens only in that same case; when the patch supplies a completedDate
the event is updated with it but the room status is left unchanged. -/
theorem maintenance_completed_transition_amended (s : Store) (u : CtxUser) (now : Nat)
    (id : String) (p : MaintenancePatch) (e : MaintenanceEvent) (room : Room)
    (hfe : s.maintenanceEvents.find? (fun x => x.id == id) = some e)
    (hfr : s.rooms.find? (fun r => r.id == e.roomId) = some room)
    (hst : p.status = some "COMPLETED")
    (hpr : p.priority = none) :
    (p.completedDate = none →
      (updateMaintenanceEvent s (some u) now id p).snd =
        Except.ok { e with status := MaintenanceStatus.COMPLETED, completedDate := some now } ∧
      (room.status = RoomStatus.MAINTENANCE →
        roomStatus (updateMaintenanceEvent s (some u) now id p).fst e.roomId =
          some RoomStatus.AVAILABLE) ∧
      (room.status ≠ RoomStatus.MAINTENANCE →
        roomStatus (updateMaintenanceEvent s (some u) now id p).fst e.roomId =
          some room.status)) ∧
    (∀ d : Nat, p.completedDate = some d →
      (updateMaintenanceEvent s (some u) now id p).snd =
        Except.ok { e with status := MaintenanceStatus.COMPLETED, completedDate := some d } ∧
      roomStatus (updateMaintenanceEvent s (some u) now id p).fst e.roomId =
        some room.status) := by
  have hs : roomStatus s e.roomId = some room.status := by
    unfold roomStatus
    rw [hfr]
    rfl
  have hparse : parseMaintenanceStatusStr "COMPLETED" = some MaintenanceStatus.COMPLETED := rfl
  constructor
  · intro hcd
    by_cases hrm : room.status = RoomStatus.MAINTENANCE
    · have hop : updateMaintenanceEvent s (some u) now id p =
          ({ setRoomStatus s e.roomId RoomStatus.AVAILABLE with
              maintenanceEvents :=
                (setRoomStatus s e.roomId RoomStatus.AVAILABLE).maintenanceEvents.map
                  (fun x => if x.id == id then
                    { e with status := MaintenanceStatus.COMPLETED, completedDate := some now }
                  else x) },
           Except.ok { e with status := MaintenanceStatus.COMPLETED, completedDate := some now }) := by
        unfold updateMaintenanceEvent handleStatusTransition applyMaintenancePatch
        simp [hfe, hfr, hst, hpr, hcd, hrm, hparse]
      rw [hop]
      refine ⟨rfl, fun _ => ?_, fun hc => absurd hrm hc⟩
      show roomStatus (setRoomStatus s e.roomId RoomStatus.AVAILABLE) e.roomId =
        some RoomStatus.AVAILABLE
      rw [roomStatus_setRoomStatus, hs]
      rfl
    · have hop : updateMaintenanceEvent s (some u) now id p =
          ({ s with maintenanceEvents :=
              s.maintenanceEvents.map (fun x =>
                if x.id == id then
                  { e with status := MaintenanceStatus.COMPLETED, completedDate := some now }
                else x) },
           Except.ok { e with status := MaintenanceStatus.COMPLETED, completedDate := some now }) := by
        unfold updateMaintenanceEvent handleStatusTransition applyMaintenancePatch
        simp [hfe, hfr, hst, hpr, hcd, hrm, hparse]
      rw [hop]
      exact ⟨rfl, fun hc => absurd hc hrm, fun _ => hs⟩
  · intro d hcd
    have hop : updateMaintenanceEvent s (some u) now id p =
        ({ s with maintenanceEvents :=
            s.maintenanceEvents.map (fun x =>
              if x.id == id then
                { e with status := MaintenanceStatus.COMPLETED, completedDate := some d }
              else x) },
         Except.ok { e with status := MaintenanceStatus.COMPLETED, completedDate := some d }) := by
      unfold updateMaintenanceEvent handleStatusTransition applyMaintenancePatch
      simp [hfe, hfr, hst, hpr, hcd, hparse]
    rw [hop]
    exact ⟨rfl, hs⟩

/-- Witness for maintenance_completed_transition_amended: the COMPLETED
patch without a completedDate on the MAINTENANCE room r1 stamps now and
reverts the room. -/
theorem maintenance_completed_transition_amended_witness :
    (updateMaintenanceEvent storeC7 (some someUser) 100 "m1"
        { status := some "COMPLETED", priority := none, completedDate := none }).snd =
      Except.ok { id := "m1", title := "Fix sink", status := MaintenanceStatus.COMPLETED,
                  priority := MaintenancePriority.MEDIUM, roomId := "r1", completedDate := some 100 } ∧
    roomStatus (updateMaintenanceEvent storeC7 (some someUser) 100 "m1"
        { status := some "COMPLETED", priority := none, completedDate := none }).fst "r1" =
      some RoomStatus.AVAILABLE := by
  obtain ⟨h1, h2⟩ := maintenance_completed_transition_amended storeC7 someUser 100 "m1"
    { status := some "COMPLETED", priority := none, completedDate := none }
    { id := "m1", title := "Fix sink", status := MaintenanceStatus.IN_PROGRESS,
      priority := MaintenancePriority.MEDIUM, roomId := "r1", completedDate := none }
    { id := "r1", name := "Room A", status := RoomStatus.MAINTENANCE, price := 100, propertyId := "p1" }
    rfl rfl rfl rfl
  obtain ⟨ha, hb, _⟩ := h1 rfl
  exact ⟨ha, hb rfl⟩

/-- Replacing the contract whose id is excluded by the shared-renter
query does not change the query's count. -/
theorem otherSharedContractCount_map_update (l : List Contract) (id : String)
    (roomId : String) (rids : List String) (upd : Contract) (hid : upd.id = id) :
    otherSharedContractCount (l.map (fun x => if x.id == id then upd else x)) id roomId rids
      = otherSharedContractCount l id roomId rids := by
  unfold otherSharedContractCount
  induction l with
  | nil => rfl
  | cons a t ih =>
    rw [List.map_cons]
    by_cases h : a.id = id
    · rw [show (if a.id == id then upd else a) = upd from by simp [h]]
      have hpu : (upd.id != id && upd.roomId == roomId &&
          upd.renterIds.any (fun r => rids.contains r)) = false := by simp [hid]
      have hpa : (a.id != id && a.roomId == roomId &&
          a.renterIds.any (fun r => rids.contains r)) = false := by simp [h]
      simp only [List.filter_cons, hpu, hpa, Bool.false_eq_true, if_false]
      exact ih
    · rw [show (if a.id == id then upd else a) = a from by simp [h]]
      simp only [List.filter_cons]
      cases hpa : (a.id != id && a.roomId == roomId &&
          a.renterIds.any (fun r => rids.contains r))
      · rw [if_neg (by simp), if_neg (by simp)]
        exact ih
      · rw [if_pos rfl, if_pos rfl]
        simp only [List.length_cons, ih]

/-- The shared-renter count is zero exactly when no other contract of any
status on the room shares a renter. -/
theorem otherSharedContractCount_eq_zero_iff (l : List Contract) (id : String)
    (roomId : String) (rids : List String) :
    otherSharedContractCount l id roomId rids = 0 ↔
      existsOtherSharedContract l id roomId rids = false := by
  unfold otherSharedContractCount existsOtherSharedContract
  rw [List.length_eq_zero, List.filter_eq_nil_iff, List.any_eq_false]

/-- C3 amended: when updateContract moves the status into TERMINATED or
EXPIRED, and when terminateContract succeeds, the room is set to
AVAILABLE exactly when no other contract referencing the same room shares
a renter with the closed contract, counting contracts of every status: an
other such contract that is itself TERMINATED or EXPIRED also prevents
the release (the query has no ACTIVE filter). -/
theorem contract_close_room_release_amended (s : Store) (u : CtxUser) (id : String)
    (patch : ContractPatch) (rsn : String) (tdate : Nat) (c : Contract) (st0 : RoomStatus)
    (hfind : s.contracts.find? (fun x => x.id == id) = some c)
    (hroom : roomStatus s c.roomId = some st0)
    (hterm : patch.status = some ContractStatus.TERMINATED ∨
      patch.status = some ContractStatus.EXPIRED)
    (hcstat : c.status ≠ ContractStatus.TERMINATED ∧ c.status ≠ ContractStatus.EXPIRED)
    (hrsn : rsn ≠ "") :
    ((updateContract s (some u) id patch).snd = Except.ok (applyContractPatch c patch) ∧
     roomStatus (updateContract s (some u) id patch).fst c.roomId =
       (if existsOtherSharedContract s.contracts id c.roomId c.renterIds then some st0
        else some RoomStatus.AVAILABLE)) ∧
    ((terminateContract s (some u) id (some rsn) tdate).snd =
       Except.ok { c with
                   status := ContractStatus.TERMINATED
                   terminationReason := some rsn
                   terminationDate := some tdate } ∧
     roomStatus (terminateContract s (some u) id (some rsn) tdate).fst c.roomId =
       (if existsOtherSharedContract s.contracts id c.roomId c.renterIds then some st0
        else some RoomStatus.AVAILABLE)) := by
  have hcid : c.id = id := by
    have h := List.find?_some hfind
    simpa using h
  have hupd_id : (applyContractPatch c patch).id = id := by
    simp [applyContractPatch, hcid]
  have hrm : (applyContractPatch c patch).roomId = c.roomId := by
    simp [applyContractPatch]
  have hrn : (applyContractPatch c patch).renterIds = c.renterIds := by
    simp [applyContractPatch]
  have hcond : (patch.status == some ContractStatus.TERMINATED ||
      patch.status == some ContractStatus.EXPIRED) = true := by
    rcases hterm with h | h <;> simp [h]
  have hcond2 : (c.status == ContractStatus.TERMINATED ||
      c.status == ContractStatus.EXPIRED) = false := by
    simp [hcstat.1, hcstat.2]
  have hcntU : otherSharedContractCount
      (s.contracts.map (fun x => if x.id == id then applyContractPatch c patch else x))
      id c.roomId c.renterIds = otherSharedContractCount s.contracts id c.roomId c.renterIds :=
    otherSharedContractCount_map_update s.contracts id c.roomId c.renterIds _ hupd_id
  have hcntT : otherSharedContractCount
      (s.contracts.map (fun x => if x.id == id then
        { c with
          status := ContractStatus.TERMINATED
          terminationReason := some rsn
          terminationDate := some tdate } else x))
      id c.roomId c.renterIds = otherSharedContractCount s.contracts id c.roomId c.renterIds :=
    otherSharedContractCount_map_update s.contracts id c.roomId c.renterIds _ hcid
  cases hex : existsOtherSharedContract s.contracts id c.roomId c.renterIds with
  | true =>
    have hne : otherSharedContractCount s.contracts id c.roomId c.renterIds ≠ 0 := by
      intro h0
      rw [(otherSharedContractCount_eq_zero_iff _ _ _ _).mp h0] at hex
      cases hex
    have hcne : ¬((otherSharedContractCount s.contracts id c.roomId c.renterIds == 0) = true) := by
      simp [hne]
    constructor
    · have hop : updateContract s (some u) id patch =
          ({ s with contracts :=
              s.contracts.map (fun x => if x.id == id then applyContractPatch c patch else x) },
           Except.ok (applyContractPatch c patch)) := by
        unfold updateContract
        simp only [hfind]
        rw [hcond, if_pos rfl, hrm, hrn]
        simp only [hcntU]
        rw [if_neg hcne]
      rw [hop]
      exact ⟨rfl, hroom⟩
    · have hop : terminateContract s (some u) id (some rsn) tdate =
          ({ s with contracts :=
              s.contracts.map (fun x => if x.id == id then
                { c with
                  status := ContractStatus.TERMINATED
                  terminationReason := some rsn
                  terminationDate := some tdate } else x) },
           Except.ok { c with
                       status := ContractStatus.TERMINATED
                       terminationReason := some rsn
                       terminationDate := some tdate }) := by
        unfold terminateContract
        simp only [hfind]
        rw [if_neg (show ¬((rsn == "") = true) from by simp [hrsn])]
        rw [if_neg (show ¬((c.status == ContractStatus.TERMINATED ||
          c.status == ContractStatus.EXPIRED) = true) from by simp [hcstat.1, hcstat.2])]
        simp only [hcntT]
        rw [if_neg hcne]
      rw [hop]
      exact ⟨rfl, hroom⟩
  | false =>
    have h0 : otherSharedContractCount s.contracts id c.roomId c.renterIds = 0 :=
      (otherSharedContractCount_eq_zero_iff _ _ _ _).mpr hex
    have hceq : (otherSharedContractCount s.contracts id c.roomId c.renterIds == 0) = true := by
      simp [h0]
    constructor
    · have hop : updateContract s (some u) id patch =
          (setRoomStatus
            { s with contracts :=
                s.contracts.map (fun x => if x.id == id then applyContractPatch c patch else x) }
            c.roomId RoomStatus.AVAILABLE,
           Except.ok (applyContractPatch c patch)) := by
        unfold updateContract
        simp only [hfind]
        rw [hcond, if_pos rfl, hrm, hrn]
        simp only [hcntU]
        rw [if_pos hceq]
      rw [hop]
      refine ⟨rfl, ?_⟩
      rw [roomStatus_setRoomStatus]
      have h2 : roomStatus
          { s with contracts :=
              s.contracts.map (fun x => if x.id == id then applyContractPatch c patch else x) }
          c.roomId = some st0 := hroom
      rw [h2]
      rfl
    · have hop : terminateContract s (some u) id (some rsn) tdate =
          (setRoomStatus
            { s with contracts :=
                s.contracts.map (fun x => if x.id == id then
                  { c with
                    status := ContractStatus.TERMINATED
                    terminationReason := some rsn
                    terminationDate := some tdate } else x) }
            c.roomId RoomStatus.AVAILABLE,
           Except.ok { c with
                       status := ContractStatus.TERMINATED
                       terminationReason := some rsn
                       terminationDate := some tdate }) := by
        unfold terminateContract
        simp only [hfind]
        rw [if_neg (show ¬((rsn == "") = true) from by simp [hrsn])]
        rw [if_neg (show ¬((c.status == ContractStatus.TERMINATED ||
          c.status == ContractStatus.EXPIRED) = true) from by simp [hcstat.1, hcstat.2])]
        simp only [hcntT]
        rw [if_pos hceq]
      rw [hop]
      refine ⟨rfl, ?_⟩
      rw [roomStatus_setRoomStatus]
      have h2 : roomStatus
          { s with contracts :=
              s.contracts.map (fun x => if x.id == id then
                { c with
                  status := ContractStatus.TERMINATED
                  terminationReason := some rsn
                  terminationDate := some tdate } else x) }
          c.roomId = some st0 := hroom
      rw [h2]
      rfl

/-- Witness for contract_close_room_release_amended: closing c1 while the
TERMINATED sibling c2 shares renter x1 leaves the room OCCUPIED. -/
theorem contract_close_room_release_amended_witness :
    (terminateContract storeC3 (some someUser) "c1" (some "non-payment") 100).snd =
      Except.ok
        { id := "c1"
          name := "Lease 1"
          roomId := "r1"
          renterIds := ["x1"]
          startDate := some 1
          endDate := some 2
          amount := 500
          status := ContractStatus.TERMINATED
          terminationReason := some "non-payment"
          terminationDate := some 100 } ∧
    roomStatus (terminateContract storeC3 (some someUser) "c1" (some "non-payment") 100).fst "r1" =
      some RoomStatus.OCCUPIED := by
  obtain ⟨_, h2⟩ := contract_close_room_release_amended storeC3 someUser "c1"
    { name := none, startDate := none, endDate := none, amount := none,
      status := some ContractStatus.TERMINATED }
    "non-payment" 100
    { id := "c1"
      name := "Lease 1"
      roomId := "r1"
      renterIds := ["x1"]
      startDate := some 1
      endDate := some 2
      amount := 500
      status := ContractStatus.ACTIVE
      terminationReason := none
      terminationDate := none }
    RoomStatus.OCCUPIED rfl rfl (Or.inl rfl) (by decide) (by decide)
  obtain ⟨ha, hb⟩ := h2
  refine ⟨ha, ?_⟩
  rw [hb]
  rfl

/-- Filtering renters by membership of their id has the same length as
filtering the id list itself. -/
theorem length_filter_contains_map (rs : List Renter) (ids : List String) :
    (rs.filter (fun r => ids.contains r.id)).length
      = ((rs.map Renter.id).filter (fun x => ids.contains x)).length := by
  induction rs with
  | nil => rfl
  | cons a t ih =>
    simp only [List.map_cons, List.filter_cons]
    cases hq : ids.contains a.id
    · rw [if_neg (by simp), if_neg (by simp)]
      exact ih
    · rw [if_pos rfl, if_pos rfl]
      simp only [List.length_cons, ih]

/-- On duplicate-free lists, filtering by membership of a duplicate-free
sublist recovers exactly that sublist's length. -/
theorem length_filter_mem_eq (L ids : List String) (hnd : L.Nodup) (hids : ids.Nodup)
    (hsub : ∀ i ∈ ids, i ∈ L) :
    (L.filter (fun x => ids.contains x)).length = ids.length := by
  have h1 : (L.filter (fun x => ids.contains x)).Nodup := hnd.filter _
  have h2 : (L.filter (fun x => ids.contains x)).toFinset = ids.toFinset := by
    ext x
    simp only [List.mem_toFinset, List.mem_filter, List.contains, List.elem_iff]
    exact ⟨fun h => h.2, fun h => ⟨hsub x h, h⟩⟩
  calc (L.filter (fun x => ids.contains x)).length
      = (L.filter (fun x => ids.contains x)).toFinset.card :=
        (List.toFinset_card_of_nodup h1).symm
    _ = ids.toFinset.card := by rw [h2]
    _ = ids.length := List.toFinset_card_of_nodup hids

/-- When some id of the list is missing from the duplicate-free base
list, the filter comes up short. -/
theorem length_filter_mem_lt (L ids : List String) (hnd : L.Nodup)
    (i : String) (hi : i ∈ ids) (hmiss : i ∉ L) :
    (L.filter (fun x => ids.contains x)).length < ids.length := by
  have h1 : (L.filter (fun x => ids.contains x)).Nodup := hnd.filter _
  have hsubset : (L.filter (fun x => ids.contains x)).toFinset ⊆ ids.toFinset.erase i := by
    intro x hx
    simp only [List.mem_toFinset, List.mem_filter, List.contains, List.elem_iff] at hx
    simp only [Finset.mem_erase, List.mem_toFinset]
    exact ⟨fun hxi => hmiss (hxi ▸ hx.1), hx.2⟩
  calc (L.filter (fun x => ids.contains x)).length
      = (L.filter (fun x => ids.contains x)).toFinset.card :=
        (List.toFinset_card_of_nodup h1).symm
    _ ≤ (ids.toFinset.erase i).card := Finset.card_le_card hsubset
    _ < ids.toFinset.card := Finset.card_erase_lt_of_mem (List.mem_toFinset.mpr hi)
    _ ≤ ids.length := List.toFinset_card_le ids

/-- C2 amended: with all required fields present (truthy) and the renter
id list non-empty and free of duplicates, createContract behaves as the
claim states: it succeeds when the room is AVAILABLE and every listed
renter exists, setting the room OCCUPIED and creating the contract with
the requested status and renter associations; a non-AVAILABLE room gives
the conflict error embedding the lower-cased current status; a missing
renter gives the not-found error; an absent required field gives a
validation error.  Without the duplicate-freedom assumption the success
clause is false (see the counterexample). -/
theorem createContract_amended (s : Store) (u : CtxUser) (freshId : String)
    (nm rmId : String) (rids : List String) (sd ed : Nat) (amt : Int)
    (stOpt : Option ContractStatus) (room : Room) (inp : ContractInput)
    (hinp : inp = ⟨some nm, some rids, some rmId, some sd, some ed, some amt, stOpt⟩)
    (hnm : nm ≠ "") (hrmne : rmId ≠ "") (hamt : amt ≠ 0)
    (hnodup : (s.renters.map Renter.id).Nodup)
    (hfind : s.rooms.find? (fun r => r.id == rmId) = some room)
    (hne : rids ≠ []) :
    (rids.Nodup → (∀ i ∈ rids, ∃ r ∈ s.renters, r.id = i) →
      room.status = RoomStatus.AVAILABLE →
      ∃ cNew,
        createContract s (some u) freshId inp =
          ({ setRoomStatus s rmId RoomStatus.OCCUPIED with
              contracts := s.contracts ++ [cNew] },
           Except.ok cNew) ∧
        cNew.status = stOpt.getD ContractStatus.ACTIVE ∧
        cNew.renterIds = rids ∧ cNew.roomId = rmId ∧
        roomStatus (createContract s (some u) freshId inp).fst rmId =
          some RoomStatus.OCCUPIED) ∧
    (room.status ≠ RoomStatus.AVAILABLE →
      createContract s (some u) freshId inp =
        (s, Except.error (Err.mk ErrKind.conflict
          ("Room is currently " ++ roomStatusLower room.status)))) ∧
    (room.status = RoomStatus.AVAILABLE →
      (∃ i ∈ rids, ∀ r ∈ s.renters, r.id ≠ i) →
      createContract s (some u) freshId inp =
        (s, Except.error (Err.mk ErrKind.notFound "One or more renters not found"))) ∧
    (∀ inp2 : ContractInput,
      (inp2.roomId = none ∨ inp2.renterIds = none ∨ inp2.startDate = none ∨
        inp2.endDate = none ∨ inp2.amount = none) →
      ∃ m, createContract s (some u) freshId inp2 =
        (s, Except.error (Err.mk ErrKind.validation m))) := by
  have hf1 : inp.name = some nm := by rw [hinp]
  have hf2 : inp.renterIds = some rids := by rw [hinp]
  have hf3 : inp.roomId = some rmId := by rw [hinp]
  have hf4 : inp.startDate = some sd := by rw [hinp]
  have hf5 : inp.endDate = some ed := by rw [hinp]
  have hf6 : inp.amount = some amt := by rw [hinp]
  have hf7 : inp.status = stOpt := by rw [hinp]
  have hlen0 : ¬((rids.length == 0) = true) := by
    simp [List.length_eq_zero, hne]
  refine ⟨?_, ?_, ?_, ?_⟩
  · intro hids hsub hav
    have hsub2 : ∀ i ∈ rids, i ∈ s.renters.map Renter.id := by
      intro i hi
      rcases hsub i hi with ⟨r, hr, he⟩
      exact List.mem_map.mpr ⟨r, hr, he⟩
    have hflen : (s.renters.filter (fun r => rids.contains r.id)).length = rids.length := by
      rw [length_filter_contains_map]
      exact length_filter_mem_eq _ _ hnodup hids hsub2
    have hop : createContract s (some u) freshId inp =
        ({ setRoomStatus s rmId RoomStatus.OCCUPIED with
            contracts := s.contracts ++
              [{ id := freshId
                 name := nm
                 roomId := rmId
                 renterIds := rids
                 startDate := some sd
                 endDate := some ed
                 amount := amt
                 status := stOpt.getD ContractStatus.ACTIVE
                 terminationReason := none
                 terminationDate := none }] },
         Except.ok
           { id := freshId
             name := nm
             roomId := rmId
             renterIds := rids
             startDate := some sd
             endDate := some ed
             amount := amt
             status := stOpt.getD ContractStatus.ACTIVE
             terminationReason := none
             terminationDate := none }) := by
      unfold createContract
      simp only [hf1, hf2, hf3, hf4, hf5, hf6, hf7]
      rw [if_neg (show ¬((nm == "") = true) from by simp [hnm])]
      rw [if_neg (show ¬((rmId == "") = true) from by simp [hrmne])]
      rw [if_neg (show ¬((amt == 0) = true) from by simp [hamt])]
      rw [if_neg hlen0]
      simp only [hfind]
      rw [if_neg (show ¬((room.status != RoomStatus.AVAILABLE) = true) from by simp [hav])]
      rw [if_neg (show ¬(((s.renters.filter (fun r => rids.contains r.id)).length !=
        rids.length) = true) from by
          simp only [bne_iff_ne]
          exact fun h2 => h2 hflen)]
      rfl
    refine ⟨_, hop, rfl, rfl, rfl, ?_⟩
    rw [hop]
    show roomStatus (setRoomStatus s rmId RoomStatus.OCCUPIED) rmId = some RoomStatus.OCCUPIED
    rw [roomStatus_setRoomStatus]
    have hrs : roomStatus s rmId = some room.status := by
      unfold roomStatus
      rw [hfind]
      rfl
    rw [hrs]
    rfl
  · intro hnav
    unfold createContract
    simp only [hf1, hf2, hf3, hf4, hf5, hf6, hf7]
    rw [if_neg (show ¬((nm == "") = true) from by simp [hnm])]
    rw [if_neg (show ¬((rmId == "") = true) from by simp [hrmne])]
    rw [if_neg (show ¬((amt == 0) = true) from by simp [hamt])]
    rw [if_neg hlen0]
    simp only [hfind]
    rw [if_pos (show (room.status != RoomStatus.AVAILABLE) = true from by simp [hnav])]
  · intro hav hmiss
    rcases hmiss with ⟨i, hi, hmi⟩
    have hmi2 : i ∉ s.renters.map Renter.id := by
      intro hmem
      rcases List.mem_map.mp hmem with ⟨r, hr, he⟩
      exact hmi r hr he
    have hflt : (s.renters.filter (fun r => rids.contains r.id)).length < rids.length := by
      rw [length_filter_contains_map]
      exact length_filter_mem_lt _ _ hnodup i hi hmi2
    unfold createContract
    simp only [hf1, hf2, hf3, hf4, hf5, hf6, hf7]
    rw [if_neg (show ¬((nm == "") = true) from by simp [hnm])]
    rw [if_neg (show ¬((rmId == "") = true) from by simp [hrmne])]
    rw [if_neg (show ¬((amt == 0) = true) from by simp [hamt])]
    rw [if_neg hlen0]
    simp only [hfind]
    rw [if_neg (show ¬((room.status != RoomStatus.AVAILABLE) = true) from by simp [hav])]
    rw [if_pos (show ((s.renters.filter (fun r => rids.contains r.id)).length !=
      rids.length) = true from by
        simp only [bne_iff_ne]
        exact Nat.ne_of_lt hflt)]
  · intro inp2 hmiss
    unfold createContract
    rcases hn : inp2.name with _ | nm2
    · simp only [hn]
      exact ⟨"Name is required", rfl⟩
    · simp only [hn]
      by_cases he : nm2 = ""
      · rw [if_pos (by simp [he])]
        exact ⟨"Name is required", rfl⟩
      · rw [if_neg (by simp [he])]
        rcases hr : inp2.renterIds with _ | rids2
        · simp only [hr]
          exact ⟨"Renter is required", rfl⟩
        · simp only [hr]
          rcases hro : inp2.roomId with _ | rm2
          · simp only [hro]
            exact ⟨"Room is required", rfl⟩
          · simp only [hro]
            by_cases hre : rm2 = ""
            · rw [if_pos (by simp [hre])]
              exact ⟨"Room is required", rfl⟩
            · rw [if_neg (by simp [hre])]
              rcases hsd : inp2.startDate with _ | sd2
              · simp only [hsd]
                exact ⟨"Start date is required", rfl⟩
              · simp only [hsd]
                rcases hed : inp2.endDate with _ | ed2
                · simp only [hed]
                  exact ⟨"End date is required", rfl⟩
                · simp only [hed]
                  rcases ham : inp2.amount with _ | am2
                  · simp only [ham]
                    exact ⟨"Amount is required", rfl⟩
                  · rcases hmiss with h | h | h | h | h <;> simp_all

/-- Witness for createContract_amended: the distinct single-renter input
succeeds on the AVAILABLE room r1 and occupies it. -/
theorem createContract_amended_witness :
    ∃ cNew,
      createContract storeC2 (some someUser) "c9"
          ⟨some "Lease", some ["x1"], some "r1", some 1, some 2, some 500, none⟩ =
        ({ setRoomStatus storeC2 "r1" RoomStatus.OCCUPIED with
            contracts := storeC2.contracts ++ [cNew] },
         Except.ok cNew) ∧
      cNew.status = (none : Option ContractStatus).getD ContractStatus.ACTIVE ∧
      cNew.renterIds = ["x1"] ∧ cNew.roomId = "r1" ∧
      roomStatus (createContract storeC2 (some someUser) "c9"
          ⟨some "Lease", some ["x1"], some "r1", some 1, some 2, some 500, none⟩).fst "r1" =
        some RoomStatus.OCCUPIED := by
  have h := (createContract_amended storeC2 someUser "c9" "Lease" "r1" ["x1"] 1 2 500 none
    { id := "r1", name := "Room A", status := RoomStatus.AVAILABLE, price := 100, propertyId := "p1" }
    ⟨some "Lease", some ["x1"], some "r1", some 1, some 2, some 500, none⟩
    rfl (by decide) (by decide) (by decide) (by decide) rfl (by decide)).1
  exact h (by decide) (by decide) rfl

end PMS
